import Mathlib

/-!
Shallow embedding of the Roth TouchLine protocol client
(`custom_components/roth_heating/api.py` and
`base_implementation/api_reference.py`), together with theorems settling
the behavioural claims about the request builder, the positional response
decoder, the unit-conversion convention and the error-handling paths.

Conventions of the embedding:
* XML elements become `XmlNode` values (tag, optional text, children);
  `ElementTree.find` becomes `XmlNode.find`.
* Python dicts become association lists with `dictSet` modelling
  `d[k] = v` (overwrite in place, else append).
* Python `int()` / `float()` on the plain decimal literals exchanged by
  this protocol become `pyInt?` / `pyFloat?` (`none` models the raised
  `ValueError`); temperatures are modelled over `ℚ`.
* A raised-and-propagated exception becomes `Except.error`; a function
  whose `except` clause returns a value instead is modelled as total.
* The HTTP exchange is abstracted by its outcome (`HttpOutcome` /
  `WriteOutcome`): a transport failure, or a status code with a body.
-/

/-- An XML element as used by the client: a tag, the `.text` payload
(`none` models ElementTree's `None` for an empty element) and the list of
child elements. -/
inductive XmlNode where
  | elem (tag : String) (text : Option String) (children : List XmlNode)

def XmlNode.tag : XmlNode → String
  | .elem t _ _ => t

def XmlNode.text : XmlNode → Option String
  | .elem _ x _ => x

def XmlNode.children : XmlNode → List XmlNode
  | .elem _ _ c => c

/-- `ElementTree.Element.find`: first direct child with the given tag. -/
def XmlNode.find (x : XmlNode) (t : String) : Option XmlNode :=
  x.children.find? (fun c => c.tag == t)

/-- Fallback element for in-bounds list indexing. -/
def xmlDefault : XmlNode := .elem "" none []

/-- One entry of `self._xml_element_list` (api.py lines 30–40):
wire name, display name and addressing type. -/
structure PSpec where
  ptype : String
  name : String
  desc : String
  deriving DecidableEq

/-- The static parameter schema `_xml_element_list` shared by both
implementations (api.py lines 30–40, api_reference.py lines 34–51). -/
def xmlElementList : List PSpec :=
  [ ⟨"G", "name", "Name"⟩,
    ⟨"G", "SollTempMaxVal", "Setpoint max"⟩,
    ⟨"G", "SollTempMinVal", "Setpoint min"⟩,
    ⟨"G", "WeekProg", "Week program"⟩,
    ⟨"G", "OPMode", "Operation mode"⟩,
    ⟨"G", "SollTemp", "Setpoint"⟩,
    ⟨"G", "RaumTemp", "Temperature"⟩,
    ⟨"G", "kurzID", "Device ID"⟩,
    ⟨"G", "ownerKurzID", "Controller ID"⟩ ]

/-- Python dict assignment `d[k] = v` on an association list whose keys
are unique: overwrite the existing binding in place, else append. -/
def dictSet {α β : Type} [BEq α] : List (α × β) → α → β → List (α × β)
  | [], k, v => [(k, v)]
  | (a, b) :: t, k, v =>
    if a == k then (k, v) :: t else (a, b) :: dictSet t k v

/-- Python truthiness of an `Optional[str]`: `None` and `""` are falsy. -/
def truthyStr : Option String → Bool
  | none => false
  | some s => s != ""

/-- `str(value) if value else "NA"` (api_reference.py line 152). -/
def truthyOr (v : Option String) (d : String) : String :=
  match v with
  | none => d
  | some s => if s != "" then s else d

/-- Python `str.split(sep)` with a one-character separator, over the
character list: always at least one group, empty groups kept. -/
def splitOnChar (sep : Char) : List Char → List (List Char)
  | [] => [[]]
  | c :: rest =>
    match splitOnChar sep rest with
    | [] => [[]]
    | grp :: grps => if c == sep then [] :: grp :: grps else (c :: grp) :: grps

/-- Python `s.split(sep)` for the one-character separators this client
uses (`"."` and `"G"`). -/
def pySplitOn (s : String) (sep : Char) : List String :=
  (splitOnChar sep s.data).map String.mk

/-- Value of a nonempty all-digit character run; `none` otherwise. -/
def digitsVal? (l : List Char) : Option Nat :=
  if !l.isEmpty && l.all Char.isDigit then
    some (l.foldl (fun n c => n * 10 + (c.toNat - 48)) 0)
  else none

/-- Python `int(s)` on the plain (optionally signed) decimal integer
literals this protocol exchanges; `none` models `ValueError`. -/
def pyInt? (s : String) : Option Int :=
  match s.data with
  | [] => none
  | c :: rest =>
    if c == '-' then (digitsVal? rest).map (fun n => -(n : Int))
    else if c == '+' then (digitsVal? rest).map (fun n => (n : Int))
    else (digitsVal? (c :: rest)).map (fun n => (n : Int))

/-- Python `float(s)` on plain decimal literals with an optional sign and
an optional single decimal point; `none` models `ValueError`. -/
def pyFloat? (s : String) : Option ℚ :=
  let stripped : List Char :=
    match s.data with
    | [] => []
    | c :: rest => if c == '-' || c == '+' then rest else c :: rest
  let sign : ℚ :=
    match s.data with
    | [] => 1
    | c :: _ => if c == '-' then -1 else 1
  match splitOnChar '.' stripped with
  | [a] => (digitsVal? a).map (fun n => sign * (n : ℚ))
  | [a, b] =>
    if a.isEmpty && b.isEmpty then none
    else
      match (if a.isEmpty then some 0 else digitsVal? a),
            (if b.isEmpty then some 0 else digitsVal? b) with
      | some na, some nb =>
          some (sign * ((na : ℚ) + (nb : ℚ) / (10 : ℚ) ^ b.length))
      | _, _ => none
  | _ => none

/-- Python `int(q)`: truncation toward zero. -/
def pyTrunc (q : ℚ) : ℤ :=
  if 0 ≤ q then ⌊q⌋ else ⌈q⌉

/-- `raw_temp = int(temperature * 100)` — the write-path pre-scaling of
the first `set_target_temperature` definition (api.py line 153). -/
def encodeTemp (temperature : ℚ) : ℤ :=
  pyTrunc (temperature * 100)

/-- The read-path conversion `float(value) / 100.0` (api.py line 137)
applied to a response carrying a raw integer. -/
def decodeTemp (raw : ℤ) : ℚ :=
  (raw : ℚ) / 100

/-- A value sent in a write request's form data. -/
inductive FormVal where
  | int (n : ℤ)
  | str (s : String)
  | rat (q : ℚ)
  deriving DecidableEq

/-- The body a write operation POSTs to the write endpoint: either a
pre-rendered `key=value` string (`content=form_data`) or a dict handed to
httpx (`data=
{...}`), which httpx form-encodes pairwise. -/
inductive WritePayload where
  | rawString (s : String)
  | formData (pairs : List (String × FormVal))
  deriving DecidableEq

/-- First definition of `set_target_temperature` (api.py lines 149–169):
`form_data = f"G{device_id}.SollTemp={raw_temp}"` with
`raw_temp = int(temperature * 100)`. -/
def set_target_temperature_v1 (device_id : ℤ) (temperature : ℚ) : WritePayload :=
  .rawString ("G" ++ toString device_id ++ ".SollTemp=" ++ toString (encodeTemp temperature))

/-- Second definition of `set_target_temperature` (api.py lines 225–252):
posts `data = {ID: device_id, OBJ: TempSetpoint, VAL: temperature}` with
the temperature unscaled. -/
def set_target_temperature_v2 (device_id : ℤ) (temperature : ℚ) : WritePayload :=
  .formData [("ID", .int device_id), ("OBJ", .str "TempSetpoint"), ("VAL", .rat temperature)]

/-- In the Python class body the second definition (line 225) rebinds the
method name, so this is the `set_target_temperature` actually invoked. -/
def set_target_temperature : ℤ → ℚ → WritePayload :=
  set_target_temperature_v2

/-- `set_mode` write payload (api.py lines 254–281):
`data = {ID: device_id, OBJ: OperationMode, VAL: mode}`. -/
def set_mode_payload (device_id : ℤ) (mode : ℤ) : WritePayload :=
  .formData [("ID", .int device_id), ("OBJ", .str "OperationMode"), ("VAL", .int mode)]

/-- Outcome of the HTTP POST a write operation performs: the transport
raised (connection failure / timeout), or a response with a status code. -/
inductive WriteOutcome where
  | transportError
  | status (code : Nat)
  deriving DecidableEq

/-- Result path of the effective `set_target_temperature` (api.py lines
225–252): `True` on status 200, `False` (after logging) on any other
status, `False` on a caught exception. -/
def set_target_temperature_result : WriteOutcome → Bool
  | .transportError => false
  | .status code => code == 200

/-- Result path of `set_mode` (api.py lines 254–281), identical shape. -/
def set_mode_result : WriteOutcome → Bool
  | .transportError => false
  | .status code => code == 200

/-- Effective `set_operation_mode` (api.py lines 217–223): delegates to
`set_mode`; its own `except` arm also resolves to `False`. -/
def set_operation_mode_result (outcome : WriteOutcome) : Bool :=
  set_mode_result outcome

/-- The `"NA"` marker for a parameter the controller supplied no usable
value for, as written by the decoder. -/
abbrev Dict := List (String × String)

/-- `device_list[list_iterator].text.split(".")[0].split("G")[1]` inside
`try/except` (api_reference.py lines 156–160): a `None` text or a missing
index raises, the bare `except` swallows it and no Unique ID is recorded. -/
def extractUniqueId : Option String → Option String
  | none => none
  | some t => (pySplitOn ((pySplitOn t '.').headD "") 'G')[1]?

/-- The positional name/value walk of `RothRawReader.parse_device_response`
(api_reference.py lines 139–162) over one item's flattened children.
`list_iterator` is the cursor; each schema entry consumes a name node and
a value node, except that a non-name element at the expected name position
records the `"NA"` sentinel and rewinds the advance by one
(`list_iterator -= 1` followed by the unconditional `list_iterator += 2`,
a net advance of one). A cursor at or past the end stops the walk
(`break`); a name node in last position sets nothing for its spec. For the
spec processed at cursor 0 with a truthy value, the compact device id is
extracted from the name node's text into the `"Unique ID"` key. -/
def parseLoop (device_list : List XmlNode) : List PSpec → Nat → Dict → Dict
  | [], _, param => param
  | parameter :: rest, list_iterator, param =>
    if list_iterator ≥ device_list.length then param
    else if (device_list.getD list_iterator xmlDefault).tag != "n" then
      parseLoop device_list rest (list_iterator + 1) (dictSet param parameter.desc "NA")
    else
      if list_iterator + 1 < device_list.length then
        let value := (device_list.getD (list_iterator + 1) xmlDefault).text
        let param1 := dictSet param parameter.desc (truthyOr value "NA")
        let param2 :=
          if list_iterator == 0 && truthyStr value then
            match extractUniqueId (device_list.getD 0 xmlDefault).text with
            | some uid => dictSet param1 "Unique ID" uid
            | none => param1
          else param1
        parseLoop device_list rest (list_iterator + 2) param2
      else
        parseLoop device_list rest (list_iterator + 2) param
/-- `RothRawReader.parse_device_response` (api_reference.py lines 132–165):
reset `_parameter`, then run the positional walk once per `<i>` item of
`<item_list>`; a missing `item_list` raises inside the `try` and is caught,
leaving the dictionary as accumulated so far. -/
def parse_device_response (specs : List PSpec) (response : XmlNode) : Dict :=
  match response.find "item_list" with
  | none => []
  | some il =>
    (il.children.filter (fun c => c.tag == "i")).foldl
      (fun param item => parseLoop item.children specs 0 param) []

/-- A decoded value of `RothHeatingAPI.get_device_data`: raw string, or
the typed coercion applied by its parse section. -/
inductive PyVal where
  | str (s : String)
  | int (n : ℤ)
  | float (q : ℚ)
  deriving DecidableEq

/-- The decoded per-device dictionary (`data` in `get_device_data`). -/
abbrev DataDict := List (String × PyVal)

/-- The descriptions coerced via `float(value) / 100.0` (api.py line 135). -/
def temperatureDescs : List String :=
  ["Temperature", "Setpoint", "Setpoint max", "Setpoint min"]

/-- The descriptions coerced via `int(value)` (api.py line 138). -/
def intDescs : List String :=
  ["Operation mode", "Week program", "Device ID", "Controller ID"]

/-- The decode loop of `RothHeatingAPI.get_device_data` (api.py lines
130–141): fixed positional indexing `list_iterator = i * 2` with no tag
check; a value that is falsy or `"NA"` is skipped (key omitted), otherwise
it is coerced per the description. A failed `float()`/`int()` coercion
raises `ValueError`, which propagates out of `get_device_data`
(modelled as `Except.error`). -/
def getDeviceDataLoop (device_list : List XmlNode) :
    List PSpec → Nat → DataDict → Except String DataDict
  | [], _, data => .ok data
  | parameter :: rest, i, data =>
    let list_iterator := i * 2
    if list_iterator + 1 < device_list.length then
      match (device_list.getD (list_iterator + 1) xmlDefault).text with
      | none => getDeviceDataLoop device_list rest (i + 1) data
      | some value =>
        if value != "" && value != "NA" then
          if temperatureDescs.contains parameter.desc then
            match pyFloat? value with
            | some q => getDeviceDataLoop device_list rest (i + 1)
                (dictSet data parameter.desc (.float (q / 100)))
            | none => .error "ValueError"
          else if intDescs.contains parameter.desc then
            match pyInt? value with
            | some n => getDeviceDataLoop device_list rest (i + 1)
                (dictSet data parameter.desc (.int n))
            | none => .error "ValueError"
          else
            getDeviceDataLoop device_list rest (i + 1) (dictSet data parameter.desc (.str value))
        else getDeviceDataLoop device_list rest (i + 1) data
    else getDeviceDataLoop device_list rest (i + 1) data
/-- The parse section of `RothHeatingAPI.get_device_data` (api.py lines
122–143) applied to a received XML root: a missing `item_list` or `<i>`
item leaves `data` empty; otherwise the item's children are decoded
positionally by `getDeviceDataLoop` over the fixed schema. -/
def get_device_data_parse (response : XmlNode) : Except String DataDict :=
  match response.find "item_list" with
  | none => .ok []
  | some il =>
    match il.find "i" with
    | none => .ok []
    | some item => getDeviceDataLoop item.children xmlElementList 0 []

/-- `RothRawReader.get_operation_mode` (api_reference.py lines 237–245):
fetch the stored string; a falsy or `"NA"` string yields `None`; otherwise
`int()` it, a `ValueError` yielding `None`. No range check is applied. -/
def get_operation_mode (param : Dict) : Option ℤ :=
  match param.lookup "Operation mode" with
  | none => none
  | some s => if s != "" && s != "NA" then pyInt? s else none

/-- `RothRawReader.get_current_temperature` (api_reference.py lines
187–195): `int(temp_str) / self._temp_scale` with `_temp_scale = 100`;
falsy/`"NA"`/unparsable all yield `None`. -/
def get_current_temperature (param : Dict) : Option ℚ :=
  match param.lookup "Temperature" with
  | none => none
  | some s =>
    if s != "" && s != "NA" then (pyInt? s).map (fun n => (n : ℚ) / 100) else none

/-- The body of an HTTP response as far as the client can see it:
XML that fails `ET.fromstring`, or a parsed tree. -/
inductive XmlBody where
  | malformed
  | parsed (root : XmlNode)

/-- Outcome of the read-path POST performed by `request_and_receive_xml`. -/
inductive HttpOutcome where
  | transportError
  | status (code : Nat) (body : XmlBody)

/-- `request_and_receive_xml` (api.py lines 57–78): raises on a transport
failure, raises `Exception("HTTP error: ...")` on a non-200 status, raises
`ParseError` on unparsable XML, otherwise hands back the parsed root. -/
def request_and_receive_xml : HttpOutcome → Except String XmlNode
  | .transportError => .error "Network request failed"
  | .status code body =>
    if code != 200 then .error "HTTP error"
    else
      match body with
      | .malformed => .error "ParseError"
      | .parsed root => .ok root

/-- Shared body of `get_number_of_devices` (api.py lines 80–93 and
api_reference.py lines 102–115, identical inside the `try`):
`int(item_list.find('i').find('v').text)`, where a `find` returning
`None` makes the following attribute access raise `AttributeError`,
`int(None)` raises `TypeError` and `int` on a non-numeric string raises
`ValueError`. -/
def get_number_of_devices_core (outcome : HttpOutcome) : Except String ℤ :=
  match request_and_receive_xml outcome with
  | .error e => .error e
  | .ok root =>
    match root.find "item_list" with
    | none => .error "AttributeError"
    | some il =>
      match il.find "i" with
      | none => .error "AttributeError"
      | some item =>
        match item.find "v" with
        | none => .error "AttributeError"
        | some vnode =>
          match vnode.text with
          | none => .error "TypeError"
          | some t =>
            match pyInt? t with
            | none => .error "ValueError"
            | some n => .ok n

/-- `RothHeatingAPI.get_number_of_devices` (api.py lines 80–93): the
`except` clause logs and re-raises, so every failure propagates. -/
def get_number_of_devices (outcome : HttpOutcome) : Except String ℤ :=
  get_number_of_devices_core outcome

/-- `RothRawReader.get_number_of_devices` (api_reference.py lines
102–115): the `except` clause logs and returns `None` instead. -/
def get_number_of_devices_ref (outcome : HttpOutcome) : Option ℤ :=
  (get_number_of_devices_core outcome).toOption

/-- `RothHeatingAPI.get_system_status` (api.py lines 95–108): returns
`item_list.find('i').find('v').text` — the raw `.text` of the first `<v>`
of the first `<i>`, which is `None` for an empty element; a missing node
on the path raises `AttributeError`, re-raised by the `except` clause. -/
def get_system_status (outcome : HttpOutcome) : Except String (Option String) :=
  match request_and_receive_xml outcome with
  | .error e => .error e
  | .ok root =>
    match root.find "item_list" with
    | none => .error "AttributeError"
    | some il =>
      match il.find "i" with
      | none => .error "AttributeError"
      | some item =>
        match item.find "v" with
        | none => .error "AttributeError"
        | some vnode => .ok vnode.text

/-- The per-device loop of `RothHeatingAPI.get_all_devices_data` (api.py
lines 193–203): each `get_device_data` outcome is consumed in order; a
raised exception is caught and logged, leaving no entry for that index; a
falsy (empty) dict is likewise not stored; a truthy dict is stored under
the device index. -/
def get_all_devices_data_loop (fetch : Nat → Except String DataDict) :
    List Nat → List (Nat × DataDict) → List (Nat × DataDict)
  | [], devices_data => devices_data
  | device_id :: rest, devices_data =>
    match fetch device_id with
    | .error _ => get_all_devices_data_loop fetch rest devices_data
    | .ok data =>
      if data.isEmpty then get_all_devices_data_loop fetch rest devices_data
      else get_all_devices_data_loop fetch rest (dictSet devices_data device_id data)
/-- `RothHeatingAPI.get_all_devices_data` (api.py lines 189–207), given
the device count returned by `get_number_of_devices` and the per-device
fetch outcomes: iterate `range(num_devices)` with the loop above. -/
def get_all_devices_data (num_devices : Nat)
    (fetch : Nat → Except String DataDict) : List (Nat × DataDict) :=
  get_all_devices_data_loop fetch (List.range num_devices) []

theorem dictSet_lookup {α β : Type} [BEq α] [LawfulBEq α]
    (d : List (α × β)) (k : α) (v : β) (k2 : α) :
    (dictSet d k v).lookup k2 = if k2 == k then some v else d.lookup k2 := by
  induction d with
  | nil =>
    cases hk2 : k2 == k <;> simp [dictSet, List.lookup, hk2]
  | cons p t ih =>
    obtain ⟨a, b⟩ := p
    cases hak : a == k with
    | true =>
      have ha : a = k := eq_of_beq hak
      subst ha
      cases hk2 : k2 == a <;> simp [dictSet, List.lookup, hk2]
    | false =>
      cases hk2a : k2 == a with
      | true =>
        have h2 : k2 = a := eq_of_beq hk2a
        subst h2
        simp [dictSet, List.lookup, hak]
      | false =>
        simp [dictSet, List.lookup, hak, hk2a, ih]

theorem dictSet_mem {α β : Type} [BEq α]
    (d : List (α × β)) (k : α) (v : β) :
    ∀ p ∈ dictSet d k v, p = (k, v) ∨ p ∈ d := by
  induction d with
  | nil => simp [dictSet]
  | cons q t ih =>
    obtain ⟨a, b⟩ := q
    intro p hp
    by_cases hak : (a == k) = true
    · simp [dictSet, hak] at hp
      rcases hp with h | h
      · exact Or.inl (by simp [h])
      · exact Or.inr (by simp [h])
    · simp only [dictSet, hak, Bool.false_eq_true, if_false, List.mem_cons] at hp
      rcases hp with h | h
      · exact Or.inr (by simp [h])
      · rcases ih p h with h2 | h2
        · exact Or.inl h2
        · exact Or.inr (by simp [h2])

theorem dictSet_length_le {α β : Type} [BEq α]
    (d : List (α × β)) (k : α) (v : β) :
    (dictSet d k v).length ≤ d.length + 1 := by
  induction d with
  | nil => simp [dictSet]
  | cons q t ih =>
    obtain ⟨a, b⟩ := q
    by_cases hak : (a == k) = true
    · simp [dictSet, hak]
    · simp only [dictSet, hak, Bool.false_eq_true, if_false, List.length_cons]
      omega

theorem getD_append_cons {α : Type} (E : List α) (x : α) (l : List α) (d : α) :
    (E ++ x :: l).getD E.length d = x := by
  induction E with
  | nil => rfl
  | cons a t ih => simpa using ih

theorem parseLoop_lookup_not_mem (dl : List XmlNode) (specs : List PSpec) :
    ∀ (i : Nat) (param : Dict) (k : String), 1 ≤ i → k ∉ specs.map (·.desc) →
    (parseLoop dl specs i param).lookup k = param.lookup k := by
  induction specs with
  | nil => intro i param k _ _; simp [parseLoop]
  | cons p rest ih =>
    intro i param k hi hk
    simp only [List.map_cons, List.mem_cons, not_or] at hk
    obtain ⟨hk1, hk2⟩ := hk
    rw [parseLoop]
    by_cases h1 : i ≥ dl.length
    · rw [if_pos h1]
    · rw [if_neg h1]
      by_cases h2 : ((dl.getD i xmlDefault).tag != "n") = true
      · rw [if_pos h2, ih (i + 1) _ k (by omega) hk2, dictSet_lookup,
          if_neg (by simp [hk1])]
      · rw [if_neg h2]
        have h0 : (i == 0) = false := by
          simp only [beq_eq_false_iff_ne, ne_eq]
          omega
        by_cases h3 : i + 1 < dl.length
        · rw [if_pos h3]
          simp only [h0, Bool.false_and, Bool.false_eq_true, if_false]
          rw [ih (i + 2) _ k (by omega) hk2, dictSet_lookup,
            if_neg (by simp [hk1])]
        · rw [if_neg h3, ih (i + 2) _ k (by omega) hk2]

/-- A well-formed run of alternating name/value element pairs: one name
node (with the given text) and one value node per schema entry. -/
def pairsChunk : List (PSpec × Option String × String) → List XmlNode
  | [] => []
  | t :: rest =>
    XmlNode.elem "n" t.2.1 [] :: XmlNode.elem "v" (some t.2.2) [] :: pairsChunk rest

theorem pairsChunk_cons (t : PSpec × Option String × String)
    (rest : List (PSpec × Option String × String)) :
    pairsChunk (t :: rest)
      = XmlNode.elem "n" t.2.1 [] :: XmlNode.elem "v" (some t.2.2) [] :: pairsChunk rest := rfl

theorem parseLoop_pairs (rz : List (PSpec × Option String × String)) :
    ∀ (E : List XmlNode) (param : Dict), 1 ≤ E.length →
    parseLoop (E ++ pairsChunk rz) (rz.map (·.1)) E.length param
      = rz.foldl (fun d t => dictSet d t.1.desc (truthyOr (some t.2.2) "NA")) param := by
  induction rz with
  | nil => intro E param _; simp [parseLoop]
  | cons t rest ih =>
    intro E param hE
    rw [List.map_cons, pairsChunk_cons, parseLoop]
    have hlen : (E ++ XmlNode.elem "n" t.2.1 [] :: XmlNode.elem "v" (some t.2.2) []
        :: pairsChunk rest).length = E.length + 2 + (pairsChunk rest).length := by
      simp [List.length_append]
      omega
    rw [if_neg (by omega)]
    have hg1 : (E ++ XmlNode.elem "n" t.2.1 [] :: XmlNode.elem "v" (some t.2.2) []
        :: pairsChunk rest).getD E.length xmlDefault = XmlNode.elem "n" t.2.1 [] :=
      getD_append_cons E _ _ _
    rw [hg1]
    rw [if_neg (by simp [XmlNode.tag])]
    rw [if_pos (by omega)]
    have hg2 : (E ++ XmlNode.elem "n" t.2.1 [] :: XmlNode.elem "v" (some t.2.2) []
        :: pairsChunk rest).getD (E.length + 1) xmlDefault
        = XmlNode.elem "v" (some t.2.2) [] := by
      have := getD_append_cons (E ++ [XmlNode.elem "n" t.2.1 []])
        (XmlNode.elem "v" (some t.2.2) []) (pairsChunk rest) xmlDefault
      simpa [List.append_assoc] using this
    rw [hg2]
    have h0 : (E.length == 0) = false := by
      simp only [beq_eq_false_iff_ne, ne_eq]
      omega
    simp only [h0, Bool.false_and, Bool.false_eq_true, if_false, XmlNode.text]
    have hre : E ++ XmlNode.elem "n" t.2.1 [] :: XmlNode.elem "v" (some t.2.2) []
        :: pairsChunk rest
        = (E ++ [XmlNode.elem "n" t.2.1 [], XmlNode.elem "v" (some t.2.2) []])
          ++ pairsChunk rest := by
      simp [List.append_assoc]
    have hlen2 : E.length + 2
        = (E ++ [XmlNode.elem "n" t.2.1 [], XmlNode.elem "v" (some t.2.2) []]).length := by
      simp [List.length_append]
    rw [hre, hlen2, ih _ _ (by simp [List.length_append])]
    simp [List.foldl_cons]

theorem lookup_foldl_dictSet_not_mem {γ : Type} (g : γ → String) (h : γ → String) :
    ∀ (l : List γ) (d : Dict) (k : String), k ∉ l.map g →
    (l.foldl (fun acc t => dictSet acc (g t) (h t)) d).lookup k = d.lookup k := by
  intro l
  induction l with
  | nil => intro d k _; rfl
  | cons a rest ih =>
    intro d k hk
    simp only [List.map_cons, List.mem_cons, not_or] at hk
    obtain ⟨hk1, hk2⟩ := hk
    rw [List.foldl_cons, ih _ k hk2, dictSet_lookup, if_neg (by simp [hk1])]

theorem lookup_foldl_dictSet_mem {γ : Type} (g : γ → String) (h : γ → String) :
    ∀ (l : List γ) (d : Dict) (t : γ), (l.map g).Nodup → t ∈ l →
    (l.foldl (fun acc t => dictSet acc (g t) (h t)) d).lookup (g t) = some (h t) := by
  intro l
  induction l with
  | nil => intro d t _ ht; cases ht
  | cons a rest ih =>
    intro d t hnd ht
    simp only [List.map_cons, List.nodup_cons] at hnd
    obtain ⟨hnd1, hnd2⟩ := hnd
    rcases List.mem_cons.mp ht with rfl | ht2
    · rw [List.foldl_cons,
        lookup_foldl_dictSet_not_mem g h rest _ (g t) hnd1,
        dictSet_lookup, if_pos (by simp)]
    · exact ih _ t hnd2 ht2

theorem parseLoop_length_le (dl : List XmlNode) (specs : List PSpec) :
    ∀ (i : Nat) (param : Dict), 1 ≤ i →
    (parseLoop dl specs i param).length ≤ param.length + specs.length := by
  induction specs with
  | nil => intro i param _; simp [parseLoop]
  | cons p rest ih =>
    intro i param hi
    rw [parseLoop]
    by_cases h1 : i ≥ dl.length
    · rw [if_pos h1]; simp
    · rw [if_neg h1]
      by_cases h2 : ((dl.getD i xmlDefault).tag != "n") = true
      · rw [if_pos h2]
        calc (parseLoop dl rest (i + 1) (dictSet param p.desc "NA")).length
            ≤ (dictSet param p.desc "NA").length + rest.length := ih (i + 1) _ (by omega)
          _ ≤ param.length + 1 + rest.length := by
              have := dictSet_length_le param p.desc "NA"
              omega
          _ = param.length + (p :: rest).length := by simp; omega
      · rw [if_neg h2]
        have h0 : (i == 0) = false := by
          simp only [beq_eq_false_iff_ne, ne_eq]
          omega
        by_cases h3 : i + 1 < dl.length
        · rw [if_pos h3]
          simp only [h0, Bool.false_and, Bool.false_eq_true, if_false]
          calc (parseLoop dl rest (i + 2)
                (dictSet param p.desc (truthyOr (dl.getD (i + 1) xmlDefault).text "NA"))).length
              ≤ (dictSet param p.desc (truthyOr (dl.getD (i + 1) xmlDefault).text "NA")).length
                + rest.length := ih (i + 2) _ (by omega)
            _ ≤ param.length + 1 + rest.length := by
                have := dictSet_length_le param p.desc
                  (truthyOr (dl.getD (i + 1) xmlDefault).text "NA")
                omega
            _ = param.length + (p :: rest).length := by simp; omega
        · rw [if_neg h3]
          calc (parseLoop dl rest (i + 2) param).length
              ≤ param.length + rest.length := ih (i + 2) _ (by omega)
            _ ≤ param.length + (p :: rest).length := by simp

theorem parseLoop_length (dl : List XmlNode) (specs : List PSpec)
    (i : Nat) (param : Dict) :
    (parseLoop dl specs i param).length ≤ param.length + specs.length + 1 := by
  cases specs with
  | nil => simp [parseLoop]
  | cons p rest =>
    rw [parseLoop]
    by_cases h1 : i ≥ dl.length
    · rw [if_pos h1]; omega
    · rw [if_neg h1]
      by_cases h2 : ((dl.getD i xmlDefault).tag != "n") = true
      · rw [if_pos h2]
        have ha := parseLoop_length_le dl rest (i + 1) (dictSet param p.desc "NA") (by omega)
        have hb := dictSet_length_le param p.desc "NA"
        simp only [List.length_cons]
        omega
      · rw [if_neg h2]
        by_cases h3 : i + 1 < dl.length
        · rw [if_pos h3]
          by_cases h4 : (i == 0 && truthyStr (dl.getD (i + 1) xmlDefault).text) = true
          · simp only [h4, if_true]
            set param1 := dictSet param p.desc (truthyOr (dl.getD (i + 1) xmlDefault).text "NA")
              with hp1
            have hb : param1.length ≤ param.length + 1 := dictSet_length_le param _ _
            cases hext : extractUniqueId (dl.getD 0 xmlDefault).text with
            | none =>
              simp only [hext]
              have ha := parseLoop_length_le dl rest (i + 2) param1 (by omega)
              simp only [List.length_cons]
              omega
            | some uid =>
              simp only [hext]
              have ha := parseLoop_length_le dl rest (i + 2) (dictSet param1 "Unique ID" uid)
                (by omega)
              have hc := dictSet_length_le param1 "Unique ID" uid
              simp only [List.length_cons]
              omega
          · simp only [h4, Bool.false_eq_true, if_false]
            have ha := parseLoop_length_le dl rest (i + 2)
              (dictSet param p.desc (truthyOr (dl.getD (i + 1) xmlDefault).text "NA")) (by omega)
            have hb := dictSet_length_le param p.desc
              (truthyOr (dl.getD (i + 1) xmlDefault).text "NA")
            simp only [List.length_cons]
            omega
        · rw [if_neg h3]
          have ha := parseLoop_length_le dl rest (i + 2) param (by omega)
          simp only [List.length_cons]
          omega

theorem parseLoop_keys (dl : List XmlNode) (specs : List PSpec) :
    ∀ (i : Nat) (param : Dict) (kv : String × String), kv ∈ parseLoop dl specs i param →
    kv ∈ param ∨ kv.1 = "Unique ID" ∨ kv.1 ∈ specs.map (·.desc) := by
  induction specs with
  | nil =>
    intro i param kv hm
    simp only [parseLoop] at hm
    exact Or.inl hm
  | cons p rest ih =>
    intro i param kv hm
    rw [parseLoop] at hm
    by_cases h1 : i ≥ dl.length
    · rw [if_pos h1] at hm
      exact Or.inl hm
    · rw [if_neg h1] at hm
      by_cases h2 : ((dl.getD i xmlDefault).tag != "n") = true
      · rw [if_pos h2] at hm
        rcases ih _ _ kv hm with hq | hq | hq
        · rcases dictSet_mem param p.desc "NA" kv hq with hr | hr
          · right; right; simp [hr]
          · exact Or.inl hr
        · exact Or.inr (Or.inl hq)
        · right; right; simp [hq]
      · rw [if_neg h2] at hm
        by_cases h3 : i + 1 < dl.length
        · rw [if_pos h3] at hm
          by_cases h4 : (i == 0 && truthyStr (dl.getD (i + 1) xmlDefault).text) = true
          · simp only [h4, if_true] at hm
            cases hext : extractUniqueId (dl.getD 0 xmlDefault).text with
            | none =>
              simp only [hext] at hm
              rcases ih _ _ kv hm with hq | hq | hq
              · rcases dictSet_mem param p.desc _ kv hq with hr | hr
                · right; right; simp [hr]
                · exact Or.inl hr
              · exact Or.inr (Or.inl hq)
              · right; right; simp [hq]
            | some uid =>
              simp only [hext] at hm
              rcases ih _ _ kv hm with hq | hq | hq
              · rcases dictSet_mem _ "Unique ID" uid kv hq with hr | hr
                · right; left; simp [hr]
                · rcases dictSet_mem param p.desc _ kv hr with hs | hs
                  · right; right; simp [hs]
                  · exact Or.inl hs
              · exact Or.inr (Or.inl hq)
              · right; right; simp [hq]
          · simp only [h4, Bool.false_eq_true, if_false] at hm
            rcases ih _ _ kv hm with hq | hq | hq
            · rcases dictSet_mem param p.desc _ kv hq with hr | hr
              · right; right; simp [hr]
              · exact Or.inl hr
            · exact Or.inr (Or.inl hq)
            · right; right; simp [hq]
        · rw [if_neg h3] at hm
          rcases ih _ _ kv hm with hq | hq | hq
          · exact Or.inl hq
          · exact Or.inr (Or.inl hq)
          · right; right; simp [hq]

theorem gad_loop_lookup_not_mem (fetch : Nat → Except String DataDict) :
    ∀ (l : List Nat) (acc : List (Nat × DataDict)) (i : Nat), i ∉ l →
    (get_all_devices_data_loop fetch l acc).lookup i = acc.lookup i := by
  intro l
  induction l with
  | nil => intro acc i _; rfl
  | cons j rest ih =>
    intro acc i hi
    simp only [List.mem_cons, not_or] at hi
    obtain ⟨hi1, hi2⟩ := hi
    cases hf : fetch j with
    | error e =>
      simp only [get_all_devices_data_loop, hf]
      exact ih acc i hi2
    | ok data =>
      simp only [get_all_devices_data_loop, hf]
      by_cases hd : data.isEmpty
      · rw [if_pos hd]; exact ih acc i hi2
      · rw [if_neg hd, ih _ i hi2, dictSet_lookup, if_neg (by simp [hi1])]

theorem gad_loop_lookup_mem (fetch : Nat → Except String DataDict) :
    ∀ (l : List Nat) (acc : List (Nat × DataDict)) (i : Nat), l.Nodup → i ∈ l →
    (get_all_devices_data_loop fetch l acc).lookup i
      = match fetch i with
        | .ok data => if data.isEmpty then acc.lookup i else some data
        | .error _ => acc.lookup i := by
  intro l
  induction l with
  | nil => intro acc i _ hi; cases hi
  | cons j rest ih =>
    intro acc i hnd hi
    simp only [List.nodup_cons] at hnd
    obtain ⟨hnd1, hnd2⟩ := hnd
    rcases List.mem_cons.mp hi with rfl | hi2
    · cases hf : fetch i with
      | error e =>
        simp only [get_all_devices_data_loop, hf]
        rw [gad_loop_lookup_not_mem fetch rest acc i hnd1]
      | ok data =>
        simp only [get_all_devices_data_loop, hf]
        by_cases hd : data.isEmpty
        · rw [if_pos hd, gad_loop_lookup_not_mem fetch rest acc i hnd1, if_pos hd]
        · rw [if_neg hd, gad_loop_lookup_not_mem fetch rest _ i hnd1,
            dictSet_lookup, if_pos (by simp), if_neg hd]
    · have hij : i ≠ j := fun h => hnd1 (h ▸ hi2)
      cases hf : fetch j with
      | error e =>
        simp only [get_all_devices_data_loop, hf]
        exact ih acc i hnd2 hi2
      | ok data =>
        simp only [get_all_devices_data_loop, hf]
        by_cases hd : data.isEmpty
        · rw [if_pos hd]; exact ih acc i hnd2 hi2
        · rw [if_neg hd, ih _ i hnd2 hi2]
          have : (dictSet acc j data).lookup i = acc.lookup i := by
            rw [dictSet_lookup, if_neg (by simp [hij])]
          rw [this]

theorem pyTrunc_sub_lt (q : ℚ) : |(pyTrunc q : ℚ) - q| < 1 := by
  rw [pyTrunc]
  by_cases h : 0 ≤ q
  · rw [if_pos h, abs_lt]
    have h1 := Int.floor_le q
    have h2 := Int.lt_floor_add_one q
    constructor <;> linarith
  · rw [if_neg h, abs_lt]
    have h1 := Int.le_ceil q
    have h2 := Int.ceil_lt_add_one q
    constructor <;> linarith

theorem pyInt?_ne_special (s : String) (m : ℤ) (h : pyInt? s = some m) :
    s ≠ "" ∧ s ≠ "NA" := by
  constructor
  · rintro rfl
    rw [show pyInt? "" = none from by decide] at h
    exact Option.noConfusion h
  · rintro rfl
    rw [show pyInt? "NA" = none from by decide] at h
    exact Option.noConfusion h

/-- Per-device fetch outcomes with a timeout on device index 2 and a
decoded one-field snapshot everywhere else. -/
def fetchC1 : Nat → Except String DataDict := fun device_id =>
  if device_id == 2 then .error "ReadTimeout" else .ok [("Name", .str "Zone")]

/-- C1: the claim is false on the code — with 4 devices and device 2's
fetch raising, `get_all_devices_data` returns a snapshot with NO entry at
index 2 (the key is omitted, not mapped to an error marker), so the
snapshot does not have an entry for every index `0..3`. -/
theorem roth_c1_counterexample :
    (get_all_devices_data 4 fetchC1).lookup 2 = none
    ∧ (get_all_devices_data 4 fetchC1).length = 3 := ⟨rfl, rfl⟩

/-- C1 (amended): `get_all_devices_data` never aborts on a single device
failure — every index below the device count is processed — but an index
whose fetch raised, or whose decoded dict is empty, is simply omitted
from the snapshot; an index maps to a value exactly when its fetch
succeeded with a nonempty dict, and then to that decoded dict. -/
theorem roth_c1_amended :
    ∀ (num_devices : Nat) (fetch : Nat → Except String DataDict) (i : Nat),
    (get_all_devices_data num_devices fetch).lookup i
      = if i < num_devices then
          match fetch i with
          | .ok data => if data.isEmpty then none else some data
          | .error _ => none
        else none := by
  intro n fetch i
  rw [get_all_devices_data]
  by_cases h : i < n
  · rw [if_pos h, gad_loop_lookup_mem fetch (List.range n) [] i
      (List.nodup_range n) (List.mem_range.mpr h)]
    cases hf : fetch i with
    | error e => rfl
    | ok data => simp
  · rw [if_neg h, gad_loop_lookup_not_mem fetch _ [] i (by simp [List.mem_range]; omega)]
    rfl

/-- C3: the claim is false on the code — the effective
`set_target_temperature` (the second, shadowing definition) POSTs the
`ID`/`OBJ`/`VAL` form body with the unscaled temperature, not
`G<deviceIndex>.<wireName>=<rawValue>` with the value multiplied by 100. -/
theorem roth_c3_counterexample :
    set_target_temperature 1 21.5
      = .formData [("ID", .int 1), ("OBJ", .str "TempSetpoint"), ("VAL", .rat 21.5)]
    ∧ set_target_temperature 1 21.5 ≠ .rawString "G1.SollTemp=2150" := by
  refine ⟨rfl, ?_⟩
  simp [set_target_temperature, set_target_temperature_v2]

/-- C3 (amended): only the first, shadowed definition builds the
form-encoded `G<deviceIndex>.SollTemp=<rawValue>` body with the
temperature pre-scaled by 100 and truncated to an integer; the second
definition rebinds the name, so every effective temperature write POSTs
`ID=<deviceIndex>&OBJ=TempSetpoint&VAL=<temperature>` with the value
unscaled — a different payload from the first definition's. -/
theorem roth_c3_amended :
    ∀ (device_id : ℤ) (temperature : ℚ),
    set_target_temperature device_id temperature
      = .formData [("ID", .int device_id), ("OBJ", .str "TempSetpoint"),
          ("VAL", .rat temperature)]
    ∧ set_target_temperature_v1 device_id temperature
      = .rawString ("G" ++ toString device_id ++ ".SollTemp="
          ++ toString (encodeTemp temperature))
    ∧ set_target_temperature device_id temperature
      ≠ set_target_temperature_v1 device_id temperature := by
  intro device_id temperature
  refine ⟨rfl, rfl, ?_⟩
  simp [set_target_temperature, set_target_temperature_v2, set_target_temperature_v1]

/-- C4: the write-path encoding (multiply by 100, truncate to integer)
and the read-path decoding (divide by 100) round-trip any temperature to
within 0.01 °C; encoding 21.5 gives raw 2150 and decoding raw 2150 gives
exactly 21.5. -/
theorem roth_c4_round_trip :
    (∀ T : ℚ, |decodeTemp (encodeTemp T) - T| < 1 / 100)
    ∧ encodeTemp 21.5 = 2150 ∧ decodeTemp 2150 = 21.5 := by
  refine ⟨?_, ?_, ?_⟩
  · intro T
    have h := pyTrunc_sub_lt (T * 100)
    have heq : decodeTemp (encodeTemp T) - T
        = ((pyTrunc (T * 100) : ℚ) - T * 100) / 100 := by
      rw [decodeTemp, encodeTemp]; ring
    rw [heq, abs_div, abs_of_pos (by norm_num : (0:ℚ) < 100)]
    linarith
  · norm_num [encodeTemp, pyTrunc]
  · norm_num [decodeTemp]

/-- C8: the write operations resolve every transport outcome to a
boolean — `True` exactly on HTTP status 200, `False` on any other status
or on a transport failure — and the effective `set_operation_mode`
delegates to `set_mode`. -/
theorem roth_c8_write_booleans :
    ∀ outcome : WriteOutcome,
    (set_target_temperature_result outcome = true ↔ outcome = .status 200)
    ∧ (set_mode_result outcome = true ↔ outcome = .status 200)
    ∧ set_operation_mode_result outcome = set_mode_result outcome := by
  intro outcome
  cases outcome with
  | transportError =>
    simp [set_target_temperature_result, set_mode_result, set_operation_mode_result]
  | status code =>
    simp [set_target_temperature_result, set_mode_result, set_operation_mode_result]

/-- A parsed response whose item list contains zero items — the shape the
controller returns when the count query matches nothing. -/
def zeroItemsRoot : XmlNode := .elem "body" none [.elem "item_list" none []]

/-- A parsed response carrying the device count 4 in the expected
`item_list/i/v` position. -/
def countRoot4 : XmlNode :=
  .elem "body" none [.elem "item_list" none [.elem "i" none [.elem "v" (some "4") []]]]

/-- C9: the claim is false on the code — the reference implementation's
`get_number_of_devices` catches the failure raised on a zero-item
response and returns `None` (a null result) instead of propagating the
error, contradicting "never returning ... a null result". -/
theorem roth_c9_counterexample :
    get_number_of_devices_ref (.status 200 (.parsed zeroItemsRoot)) = none := rfl

/-- C9 (amended): the integration client's `get_number_of_devices`
propagates an error on a transport failure, on any non-200 status, on
unparsable XML, and on a response with zero items; on a well-formed
response it returns the single value parsed as an integer. The reference
implementation's version runs the same body but its `except` clause
converts every such error into a returned `None`. -/
theorem roth_c9_amended :
    (∃ e, get_number_of_devices .transportError = .error e)
    ∧ (∀ (code : Nat) (body : XmlBody), code ≠ 200 →
        ∃ e, get_number_of_devices (.status code body) = .error e)
    ∧ (∃ e, get_number_of_devices (.status 200 .malformed) = .error e)
    ∧ (∀ root il, root.find "item_list" = some il → il.find "i" = none →
        ∃ e, get_number_of_devices (.status 200 (.parsed root)) = .error e)
    ∧ (∀ root il item vnode t n, root.find "item_list" = some il →
        il.find "i" = some item → item.find "v" = some vnode →
        vnode.text = some t → pyInt? t = some n →
        get_number_of_devices (.status 200 (.parsed root)) = .ok n)
    ∧ (∀ outcome, get_number_of_devices_ref outcome
        = (get_number_of_devices outcome).toOption) := by
  refine ⟨⟨"Network request failed", rfl⟩, ?_, ⟨"ParseError", rfl⟩, ?_, ?_, fun _ => rfl⟩
  · intro code body hc
    have hb : (code != 200) = true := by simp [hc]
    refine ⟨"HTTP error", ?_⟩
    simp [get_number_of_devices, get_number_of_devices_core, request_and_receive_xml, hb]
  · intro root il h1 h2
    refine ⟨"AttributeError", ?_⟩
    simp [get_number_of_devices, get_number_of_devices_core, request_and_receive_xml, h1, h2]
  · intro root il item vnode t n h1 h2 h3 h4 h5
    simp [get_number_of_devices, get_number_of_devices_core, request_and_receive_xml,
      h1, h2, h3, h4, h5]

/-- C9 witness: a concrete well-formed count response yields `4`, and a
concrete 404 yields an error, both through the amended theorem. -/
theorem roth_c9_witness :
    get_number_of_devices (.status 200 (.parsed countRoot4)) = .ok 4
    ∧ ∃ e, get_number_of_devices (.status 404 .malformed) = .error e := by
  constructor
  · exact roth_c9_amended.2.2.2.2.1 countRoot4 _ _ _ "4" 4 rfl rfl rfl rfl (by decide)
  · exact roth_c9_amended.2.1 404 .malformed (by decide)

/-- A parsed status response whose first item's first value element is
present but empty (ElementTree text `None`). -/
def emptyStatusRoot : XmlNode :=
  .elem "body" none [.elem "item_list" none [.elem "i" none [.elem "v" none []]]]

/-- C10: `get_system_status` returns exactly the raw `.text` of the first
`<v>` child of the first `<i>` item of a well-formed 200 response; in
particular an empty value element makes the call succeed with `None`
rather than a string and without raising. -/
theorem roth_c10_system_status (root il item vnode : XmlNode)
    (h1 : root.find "item_list" = some il)
    (h2 : il.find "i" = some item)
    (h3 : item.find "v" = some vnode) :
    get_system_status (.status 200 (.parsed root)) = .ok vnode.text := by
  simp [get_system_status, request_and_receive_xml, h1, h2, h3]

/-- C10 witness: the concrete response whose value element is empty
returns `ok None` — a successful call that yields no string. -/
theorem roth_c10_witness :
    get_system_status (.status 200 (.parsed emptyStatusRoot)) = .ok none := by
  exact roth_c10_system_status emptyStatusRoot _ _ _ rfl rfl rfl

/-- C2: at any reachable walk state (any consumed prefix `E`, any
accumulated dictionary), a non-name element `x` at the expected name
position makes the decoder record the `"NA"` sentinel for the current
spec and advance the cursor by a net one position only; when the
following elements are a well-formed name/value run for the remaining
specs, every remaining field still decodes to its own value — the single
omitted slot does not desynchronize the rest of the walk. -/
theorem roth_c2_rewind (spec : PSpec) (rz : List (PSpec × Option String × String))
    (E : List XmlNode) (x : XmlNode) (param : Dict)
    (hx : x.tag ≠ "n")
    (hnd1 : spec.desc ∉ rz.map (fun t => t.1.desc))
    (hnd2 : (rz.map (fun t => t.1.desc)).Nodup)
    (hv : ∀ t ∈ rz, t.2.2 ≠ "") :
    parseLoop (E ++ x :: pairsChunk rz) (spec :: rz.map (·.1)) E.length param
      = parseLoop (E ++ x :: pairsChunk rz) (rz.map (·.1)) (E.length + 1)
          (dictSet param spec.desc "NA")
    ∧ (parseLoop (E ++ x :: pairsChunk rz) (spec :: rz.map (·.1)) E.length param).lookup
        spec.desc = some "NA"
    ∧ ∀ t ∈ rz,
      (parseLoop (E ++ x :: pairsChunk rz) (spec :: rz.map (·.1)) E.length param).lookup
        t.1.desc = some t.2.2 := by
  have hstep : parseLoop (E ++ x :: pairsChunk rz) (spec :: rz.map (·.1)) E.length param
      = parseLoop (E ++ x :: pairsChunk rz) (rz.map (·.1)) (E.length + 1)
          (dictSet param spec.desc "NA") := by
    rw [parseLoop]
    rw [if_neg (by simp only [List.length_append, List.length_cons]; omega)]
    rw [getD_append_cons E x (pairsChunk rz) xmlDefault]
    rw [if_pos (by simp [hx])]
  have hfold : parseLoop (E ++ x :: pairsChunk rz) (rz.map (·.1)) (E.length + 1)
        (dictSet param spec.desc "NA")
      = rz.foldl (fun d t => dictSet d t.1.desc (truthyOr (some t.2.2) "NA"))
          (dictSet param spec.desc "NA") := by
    have hre : E ++ x :: pairsChunk rz = (E ++ [x]) ++ pairsChunk rz := by
      simp [List.append_assoc]
    have hlen : E.length + 1 = (E ++ [x]).length := by simp
    rw [hre, hlen]
    exact parseLoop_pairs rz (E ++ [x]) (dictSet param spec.desc "NA") (by simp)
  refine ⟨hstep, ?_, ?_⟩
  · rw [hstep, hfold,
      lookup_foldl_dictSet_not_mem (fun t => t.1.desc)
        (fun t => truthyOr (some t.2.2) "NA") rz _ spec.desc hnd1,
      dictSet_lookup, if_pos (by simp)]
  · intro t ht
    rw [hstep, hfold,
      lookup_foldl_dictSet_mem (fun t => t.1.desc)
        (fun t => truthyOr (some t.2.2) "NA") rz _ t hnd2 ht]
    simp [truthyOr, hv t ht]

/-- Mid-walk state of the spec's 4-field scenario: the first field's
name/value pair already consumed, a stray value element where the second
field's name should be, then well-formed pairs for fields three and four. -/
def specC2 : PSpec := ⟨"G", "SollTempMaxVal", "Setpoint max"⟩

def rzC2 : List (PSpec × Option String × String) :=
  [ (⟨"G", "SollTempMinVal", "Setpoint min"⟩, (some "G1.SollTempMinVal", "1500")),
    (⟨"G", "WeekProg", "Week program"⟩, (some "G1.WeekProg", "2")) ]

def prefixC2 : List XmlNode := [.elem "n" (some "G1.name") [], .elem "v" (some "Zone") []]

def strayC2 : XmlNode := .elem "v" (some "stray") []

/-- C2 witness: in the concrete 4-field scenario the misaligned second
field decodes to the sentinel while the third and fourth fields still
decode to their own values. -/
theorem roth_c2_witness :
    (parseLoop (prefixC2 ++ strayC2 :: pairsChunk rzC2) (specC2 :: rzC2.map (·.1))
        prefixC2.length []).lookup "Setpoint max" = some "NA"
    ∧ (parseLoop (prefixC2 ++ strayC2 :: pairsChunk rzC2) (specC2 :: rzC2.map (·.1))
        prefixC2.length []).lookup "Setpoint min" = some "1500"
    ∧ (parseLoop (prefixC2 ++ strayC2 :: pairsChunk rzC2) (specC2 :: rzC2.map (·.1))
        prefixC2.length []).lookup "Week program" = some "2" := by
  have H := roth_c2_rewind specC2 rzC2 prefixC2 strayC2 []
    (by decide) (by decide) (by decide) (by decide)
  exact ⟨H.2.1,
    H.2.2 (⟨"G", "SollTempMinVal", "Setpoint min"⟩, (some "G1.SollTempMinVal", "1500"))
      (by decide),
    H.2.2 (⟨"G", "WeekProg", "Week program"⟩, (some "G1.WeekProg", "2")) (by decide)⟩

/-- C6: when the first schema slot yields a truthy value, the decoder
parses the compact device id out of the first name node's text: a name of
shape `G<id>.<rest>` (e.g. `G7.name`) stores that id under `Unique ID`;
if splitting the first dot-segment on the `G` prefix leaves no remainder
(the delimiter is missing), no `Unique ID` entry is produced, no
exception escapes, and the walk still records the first field's value. -/
theorem roth_c6_unique_id (t v : String) (rest : List XmlNode) (hv : v ≠ "") :
    ((parseLoop (XmlNode.elem "n" (some t) [] :: XmlNode.elem "v" (some v) [] :: rest)
        xmlElementList 0 []).lookup "Name" = some v)
    ∧ (t = "G7.name" →
        (parseLoop (XmlNode.elem "n" (some t) [] :: XmlNode.elem "v" (some v) [] :: rest)
            xmlElementList 0 []).lookup "Unique ID" = some "7")
    ∧ ((pySplitOn ((pySplitOn t '.').headD "") 'G').length ≤ 1 →
        (parseLoop (XmlNode.elem "n" (some t) [] :: XmlNode.elem "v" (some v) [] :: rest)
            xmlElementList 0 []).lookup "Unique ID" = none) := by
  have hvb2 : (v != "") = true := by simp [hv]
  have hxml : xmlElementList = (⟨"G", "name", "Name"⟩ : PSpec) :: xmlElementList.tail := rfl
  have h0len : ¬ (0 ≥ (XmlNode.elem "n" (some t) [] :: XmlNode.elem "v" (some v) []
      :: rest).length) := by simp
  have h1len : 0 + 1 < (XmlNode.elem "n" (some t) [] :: XmlNode.elem "v" (some v) []
      :: rest).length := by
    simp only [List.length_cons]
    omega
  cases hext : extractUniqueId (some t) with
  | some uid =>
    have hstep : parseLoop (XmlNode.elem "n" (some t) [] :: XmlNode.elem "v" (some v) []
          :: rest) xmlElementList 0 []
        = parseLoop (XmlNode.elem "n" (some t) [] :: XmlNode.elem "v" (some v) [] :: rest)
            xmlElementList.tail (0 + 2) (dictSet (dictSet [] "Name" v) "Unique ID" uid) := by
      conv_lhs => rw [hxml, parseLoop]
      rw [if_neg h0len, if_neg (by simp [XmlNode.tag]), if_pos h1len]
      simp only [List.getD_cons_zero, List.getD_cons_succ, XmlNode.text, XmlNode.tag,
        truthyStr, truthyOr, hvb2, hext, beq_self_eq_true, Bool.true_and,
        eq_self_iff_true, if_true]
    refine ⟨?_, ?_, ?_⟩
    · rw [hstep, parseLoop_lookup_not_mem _ xmlElementList.tail (0 + 2) _ "Name"
        (by omega) (by decide), dictSet_lookup, if_neg (by decide)]
      rfl
    · intro ht
      rw [ht] at hext
      have he7 : extractUniqueId (some "G7.name") = some "7" := by decide
      rw [hext] at he7
      injection he7 with he7e
      rw [hstep, parseLoop_lookup_not_mem _ xmlElementList.tail (0 + 2) _ "Unique ID"
        (by omega) (by decide), dictSet_lookup, if_pos (by decide), he7e]
    · intro hlen
      have hnone : extractUniqueId (some t) = none := by
        show (pySplitOn ((pySplitOn t '.').headD "") 'G')[1]? = none
        exact List.getElem?_eq_none hlen
      rw [hext] at hnone
      exact Option.noConfusion hnone
  | none =>
    have hstep : parseLoop (XmlNode.elem "n" (some t) [] :: XmlNode.elem "v" (some v) []
          :: rest) xmlElementList 0 []
        = parseLoop (XmlNode.elem "n" (some t) [] :: XmlNode.elem "v" (some v) [] :: rest)
            xmlElementList.tail (0 + 2) (dictSet [] "Name" v) := by
      conv_lhs => rw [hxml, parseLoop]
      rw [if_neg h0len, if_neg (by simp [XmlNode.tag]), if_pos h1len]
      simp only [List.getD_cons_zero, List.getD_cons_succ, XmlNode.text, XmlNode.tag,
        truthyStr, truthyOr, hvb2, hext, beq_self_eq_true, Bool.true_and,
        eq_self_iff_true, if_true]
    refine ⟨?_, ?_, ?_⟩
    · rw [hstep, parseLoop_lookup_not_mem _ xmlElementList.tail (0 + 2) _ "Name"
        (by omega) (by decide)]
      rfl
    · intro ht
      rw [ht] at hext
      have he7 : extractUniqueId (some "G7.name") = some "7" := by decide
      rw [hext] at he7
      exact Option.noConfusion he7
    · intro _
      rw [hstep, parseLoop_lookup_not_mem _ xmlElementList.tail (0 + 2) _ "Unique ID"
        (by omega) (by decide)]
      rfl

/-- C6 witness: a first name `G7.name` with value `Zone` records the
compact id 7; the first field's value is recorded as well. -/
theorem roth_c6_witness :
    ((parseLoop [XmlNode.elem "n" (some "G7.name") [], XmlNode.elem "v" (some "Zone") []]
        xmlElementList 0 []).lookup "Name" = some "Zone")
    ∧ ((parseLoop [XmlNode.elem "n" (some "G7.name") [], XmlNode.elem "v" (some "Zone") []]
        xmlElementList 0 []).lookup "Unique ID" = some "7") := by
  have H := roth_c6_unique_id "G7.name" "Zone" [] (by decide)
  exact ⟨H.1, H.2.1 rfl⟩

/-- C5: the claim is false on the code — on a short response (here the
empty element sequence, every value absent) the decoder leaves every
remaining spec unset and produces 0 entries, not `len(S) = 9` entries. -/
theorem roth_c5_counterexample :
    (parseLoop [] xmlElementList 0 []).length = 0 ∧ xmlElementList.length = 9 := ⟨rfl, rfl⟩

/-- C5 (amended): for every schema and every element sequence the decoder
is total and produces at most `len(S) + 1` entries (the optional extra
being the `Unique ID`), every entry keyed either by a schema description
or by `Unique ID`; specs beyond a short response are left unset, so the
count can be smaller. -/
theorem roth_c5_amended :
    (∀ (specs : List PSpec) (device_list : List XmlNode),
      (parseLoop device_list specs 0 []).length ≤ specs.length + 1)
    ∧ (∀ (specs : List PSpec) (device_list : List XmlNode) (kv : String × String),
        kv ∈ parseLoop device_list specs 0 [] →
        kv.1 = "Unique ID" ∨ kv.1 ∈ specs.map (·.desc)) := by
  constructor
  · intro specs dl
    have h := parseLoop_length dl specs 0 []
    simpa using h
  · intro specs dl kv hm
    rcases parseLoop_keys dl specs 0 [] kv hm with h | h | h
    · exact absurd h (List.not_mem_nil kv)
    · exact Or.inl h
    · exact Or.inr h

/-- A one-pair response for the C5 witness. -/
def dlC5 : List XmlNode := [.elem "n" (some "G3.name") [], .elem "v" (some "Zone") []]

/-- C5 witness: the amended bound and key discipline at a concrete short
response over the full 9-entry schema. -/
theorem roth_c5_witness :
    (parseLoop dlC5 xmlElementList 0 []).length ≤ xmlElementList.length + 1
    ∧ (("Name", "Zone").1 = "Unique ID"
        ∨ ("Name", "Zone").1 ∈ xmlElementList.map (·.desc)) :=
  ⟨roth_c5_amended.1 xmlElementList dlC5,
    roth_c5_amended.2 xmlElementList dlC5 ("Name", "Zone") (by decide)⟩

/-- Helper to state concrete responses: one name/value element pair. -/
def mkPair (nm v : String) : List XmlNode :=
  [.elem "n" (some nm) [], .elem "v" (some v) []]

/-- A device response whose Temperature slot carries the unparsable text
`abc` (earlier slots all report the `NA` marker). -/
def dlBadTemp : List XmlNode :=
  mkPair "G1.name" "NA" ++ mkPair "G1.SollTempMaxVal" "NA"
    ++ mkPair "G1.SollTempMinVal" "NA" ++ mkPair "G1.WeekProg" "NA"
    ++ mkPair "G1.OPMode" "NA" ++ mkPair "G1.SollTemp" "NA"
    ++ mkPair "G1.RaumTemp" "abc"

def badTempRoot : XmlNode :=
  .elem "body" none [.elem "item_list" none [.elem "i" none dlBadTemp]]

/-- C7: the claim is false on the integration client — in
`get_device_data` a temperature field whose text fails the numeric parse
raises `ValueError`, which propagates and fails the whole device read
instead of leaving only that field unset. -/
theorem roth_c7_counterexample :
    get_device_data_parse badTempRoot = .error "ValueError" := rfl

/-- A full well-formed device response whose Operation mode slot carries
the unparsable text `abc` while the Temperature slot carries `2222`. -/
def dlMixed : List XmlNode :=
  mkPair "G1.name" "Zone" ++ mkPair "G1.SollTempMaxVal" "2800"
    ++ mkPair "G1.SollTempMinVal" "1500" ++ mkPair "G1.WeekProg" "0"
    ++ mkPair "G1.OPMode" "abc" ++ mkPair "G1.SollTemp" "2150"
    ++ mkPair "G1.RaumTemp" "2222" ++ mkPair "G1.kurzID" "3"
    ++ mkPair "G1.ownerKurzID" "100"

/-- C7 (amended): in the reference reader, typed coercion happens in the
per-field getters: any syntactically parsable operation-mode code is
passed through unchanged with no range validation, while an unparsable
code yields `None` for that field only — the same parsed snapshot still
serves the other fields (here the temperature) — whereas the integration
client's decode aborts the whole read on such a field (see the
counterexample). -/
theorem roth_c7_amended :
    (∀ (s : String) (m : ℤ) (param : Dict), pyInt? s = some m →
      get_operation_mode (dictSet param "Operation mode" s) = some m)
    ∧ get_operation_mode (parseLoop dlMixed xmlElementList 0 []) = none
    ∧ get_current_temperature (parseLoop dlMixed xmlElementList 0 [])
        = some (1111 / 50) := by
  refine ⟨?_, by decide, ?_⟩
  · intro s m param h
    obtain ⟨hs1, hs2⟩ := pyInt?_ne_special s m h
    simp [get_operation_mode, dictSet_lookup, hs1, hs2, h]
  · have hl : (parseLoop dlMixed xmlElementList 0 []).lookup "Temperature"
        = some "2222" := by decide
    have hp : pyInt? "2222" = some 2222 := by decide
    simp only [get_current_temperature, hl]
    rw [if_pos (by decide)]
    rw [hp]
    show some (((2222 : ℤ) : ℚ) / 100) = some (1111 / 50)
    exact congrArg some (by norm_num)

/-- C7 witness: the out-of-enumeration mode code 7 is passed through as
the integer 7 by the reference getter. -/
theorem roth_c7_witness :
    get_operation_mode (dictSet [] "Operation mode" "7") = some 7 :=
  roth_c7_amended.1 "7" 7 [] (by decide)
